import Mathlib

/-!
Shallow embedding of the solfight wagering-escrow program
(src/programs/solfight/src). Identities (Solana pubkeys) are abstracted as
naturals; token accounts are balances (u64 values as naturals below 2^64);
every instruction is a pure function from its accounts' state to either an
error or the updated state, mirroring the transactional all-or-nothing
semantics: an error leaves every account untouched.

Machine arithmetic: u64/u32 values are naturals, i64 values are integers;
the source's checked_mul / checked_add / checked_sub are modelled as
Option-valued operations that fail exactly when the result leaves the
machine range, and unchecked `+ 1` counter bumps wrap at the type's limit.
-/

namespace Solfight

/-- Identities (Solana Pubkey) are abstracted as naturals. -/
abbrev Pubkey := Nat

/-- Limit of u64 arithmetic. -/
def U64_LIMIT : Nat := 2 ^ 64

/-- Limit of u32 arithmetic. -/
def U32_LIMIT : Nat := 2 ^ 32

/-- Smallest i64 value. -/
def I64_MIN : Int := -(2 ^ 63)

/-- Largest i64 value. -/
def I64_MAX : Int := 2 ^ 63 - 1

/-- Rust u64::checked_mul: `some` exactly when the product fits in u64. -/
def checked_mul (a b : Nat) : Option Nat :=
  if a * b < U64_LIMIT then some (a * b) else none

/-- Rust u64::checked_add: `some` exactly when the sum fits in u64. -/
def checked_add (a b : Nat) : Option Nat :=
  if a + b < U64_LIMIT then some (a + b) else none

/-- Rust u64::checked_sub: `some` exactly when no underflow occurs. -/
def checked_sub (a b : Nat) : Option Nat :=
  if b ≤ a then some (a - b) else none

/-- Rust i64::checked_add: `some` exactly when the sum fits in i64. -/
def checked_add_i64 (a b : Int) : Option Int :=
  if I64_MIN ≤ a + b ∧ a + b ≤ I64_MAX then some (a + b) else none

/-- SPL-token transfer between two token-account balances: moves `amount`
from `source` to `dest`; fails when the source balance is insufficient or
the destination balance would overflow u64 (the token program checks both).
Returns the pair (new source balance, new destination balance). -/
def transfer (source dest amount : Nat) : Option (Nat × Nat) :=
  if amount ≤ source ∧ dest + amount < U64_LIMIT then
    some (source - amount, dest + amount)
  else none

/-- Errors from errors.rs, plus `TransferFailed` standing for any error the
SPL token program returns from a CPI transfer (insufficient balance or
destination overflow), which aborts the instruction just like a program
error. -/
inductive SolFightError where
  | InvalidBetAmount
  | GameNotActive
  | GameNotPending
  | NotAPlayer
  | AlreadySettled
  | EscrowNotFull
  | Unauthorized
  | NotWinner
  | AlreadyDeposited
  | GamerTagTooLong
  | GamerTagEmpty
  | InvalidFeeBps
  | MathOverflow
  | NotRefundable
  | NotClaimable
  | EscrowNotEmpty
  | GameNotSettled
  | TransferFailed
  deriving DecidableEq, Repr

/-- Match status. state/game.rs declares Pending, Active, Settled and
Cancelled; the instruction constraints additionally match on Tied
(refund_escrow.rs, close_game.rs) and Forfeited (claim_winnings.rs,
close_game.rs), so the embedding carries all six statuses the program's
instructions refer to. -/
inductive GameStatus where
  | Pending
  | Active
  | Settled
  | Tied
  | Forfeited
  | Cancelled
  deriving DecidableEq, Repr

/-- The Game account from state/game.rs (the PDA bump, pure storage
plumbing, is omitted). -/
structure Game where
  game_id : Nat
  player_one : Pubkey
  player_two : Pubkey
  bet_amount : Nat
  timeframe_seconds : Nat
  escrow_token_account : Pubkey
  status : GameStatus
  winner : Option Pubkey
  player_one_pnl : Int
  player_two_pnl : Int
  player_one_deposited : Bool
  player_two_deposited : Bool
  start_time : Int
  end_time : Int
  settled_at : Int
  deriving DecidableEq, Repr

/-- The Platform account from state/platform.rs (bump omitted). -/
structure Platform where
  authority : Pubkey
  fee_bps : Nat
  treasury : Pubkey
  total_games : Nat
  total_volume : Nat
  deriving DecidableEq, Repr

/-- The PlayerProfile account from state/player_profile.rs (bump omitted). -/
structure PlayerProfile where
  authority : Pubkey
  gamer_tag : String
  elo_rating : Nat
  wins : Nat
  losses : Nat
  total_pnl : Int
  current_streak : Nat
  games_played : Nat
  created_at : Int
  deriving DecidableEq, Repr

/-- initialize_platform.rs handler: rejects fee_bps above 2500 and
otherwise creates the singleton platform with zeroed counters. -/
def initialize_platform (authority treasury : Pubkey) (fee_bps : Nat) :
    Except SolFightError Platform :=
  if fee_bps ≤ 2500 then
    .ok { authority := authority, fee_bps := fee_bps, treasury := treasury,
          total_games := 0, total_volume := 0 }
  else .error .InvalidFeeBps

/-- start_game.rs: the `has_one = authority` account constraint followed by
the handler. `platform.total_games + 1` is an unchecked u64 add in the
source, modelled as wrapping at 2^64; the volume update uses checked_mul
and checked_add as in the source. Returns the updated platform and the
freshly initialised game. -/
def start_game (platform : Platform) (caller : Pubkey)
    (player_one_key player_two_key : Pubkey)
    (bet_amount timeframe_seconds : Nat) (escrow_key : Pubkey) :
    Except SolFightError (Platform × Game) :=
  if platform.authority ≠ caller then .error .Unauthorized
  else if bet_amount = 0 then .error .InvalidBetAmount
  else
    let game_id := (platform.total_games + 1) % U64_LIMIT
    match checked_mul bet_amount 2 with
    | none => .error .MathOverflow
    | some doubled =>
      match checked_add platform.total_volume doubled with
      | none => .error .MathOverflow
      | some vol =>
        .ok ({ platform with total_games := game_id, total_volume := vol },
             { game_id := game_id,
               player_one := player_one_key,
               player_two := player_two_key,
               bet_amount := bet_amount,
               timeframe_seconds := timeframe_seconds,
               escrow_token_account := escrow_key,
               status := .Pending,
               winner := none,
               player_one_pnl := 0,
               player_two_pnl := 0,
               player_one_deposited := false,
               player_two_deposited := false,
               start_time := 0,
               end_time := 0,
               settled_at := 0 })

/-- deposit_to_escrow.rs: account constraints (status Pending, caller is a
participant), then the handler: reject a repeat deposit by the same player,
transfer the bet from the player's token account to the escrow, mark the
flag, and when both flags are set activate the match, stamping
`start_time = now` and `end_time = now + timeframe_seconds` (i64
checked_add). Returns (game, escrow balance, player balance). -/
def deposit_to_escrow (game : Game) (escrow player_bal : Nat)
    (player : Pubkey) (now : Int) :
    Except SolFightError (Game × Nat × Nat) :=
  if game.status ≠ .Pending then .error .GameNotPending
  else if ¬(player = game.player_one ∨ player = game.player_two) then
    .error .NotAPlayer
  else if player = game.player_one ∧ game.player_one_deposited then
    .error .AlreadyDeposited
  else if ¬(player = game.player_one) ∧ game.player_two_deposited then
    .error .AlreadyDeposited
  else
    match transfer player_bal escrow game.bet_amount with
    | none => .error .TransferFailed
    | some (pb, es) =>
      let game1 :=
        if player = game.player_one then
          { game with player_one_deposited := true }
        else
          { game with player_two_deposited := true }
      if game1.player_one_deposited ∧ game1.player_two_deposited then
        match checked_add_i64 now (game.timeframe_seconds : Int) with
        | none => .error .MathOverflow
        | some endt =>
          .ok ({ game1 with
                 status := .Active
                 start_time := now
                 end_time := endt }, es, pb)
      else .ok (game1, es, pb)

/-- claim_winnings.rs: account constraints (status Settled or Forfeited,
recorded winner is the signing caller), then the handler's accounting
(total_pot = bet × 2, fee = total_pot × fee_bps / 10000, payout =
total_pot − fee, each step checked; the division is by the constant 10000
so its checked_div never fails), the payout transfer, and the fee transfer
performed exactly when fee > 0. Returns (game, escrow, winner balance,
treasury balance). -/
def claim_winnings (platform : Platform) (game : Game) (caller : Pubkey)
    (escrow winner_bal treasury_bal : Nat) :
    Except SolFightError (Game × Nat × Nat × Nat) :=
  if ¬(game.status = .Settled ∨ game.status = .Forfeited) then
    .error .NotClaimable
  else if game.winner ≠ some caller then .error .NotWinner
  else
    match checked_mul game.bet_amount 2 with
    | none => .error .MathOverflow
    | some total_pot =>
      match checked_mul total_pot platform.fee_bps with
      | none => .error .MathOverflow
      | some gross =>
        let fee := gross / 10000
        match checked_sub total_pot fee with
        | none => .error .MathOverflow
        | some payout =>
          match transfer escrow winner_bal payout with
          | none => .error .TransferFailed
          | some (es, wb) =>
            if fee > 0 then
              match transfer es treasury_bal fee with
              | none => .error .TransferFailed
              | some (es2, tb) => .ok (game, es2, wb, tb)
            else .ok (game, es, wb, treasury_bal)

/-- refund_escrow.rs: account constraint (status Tied or Cancelled;
permissionless caller), then the handler: for each player whose deposit
flag is set, transfer exactly `bet_amount` from the escrow back to that
player's token account. Returns (game, escrow, player-one balance,
player-two balance). -/
def refund_escrow (game : Game) (escrow p1_bal p2_bal : Nat) :
    Except SolFightError (Game × Nat × Nat × Nat) :=
  if ¬(game.status = .Tied ∨ game.status = .Cancelled) then
    .error .NotRefundable
  else
    let refund_amount := game.bet_amount
    match (if game.player_one_deposited then transfer escrow p1_bal refund_amount
           else some (escrow, p1_bal)) with
    | none => .error .TransferFailed
    | some (es1, b1) =>
      match (if game.player_two_deposited then transfer es1 p2_bal refund_amount
             else some (es1, p2_bal)) with
      | none => .error .TransferFailed
      | some (es2, b2) => .ok (game, es2, b1, b2)

/-- cancel_pending_game.rs: authority-only, Pending-only; sets the status
to Cancelled. -/
def cancel_pending_game (platform : Platform) (caller : Pubkey)
    (game : Game) : Except SolFightError Game :=
  if platform.authority ≠ caller then .error .Unauthorized
  else if game.status ≠ .Pending then .error .GameNotPending
  else .ok { game with status := .Cancelled }

/-- close_game.rs: authority-only; the escrow token account must be empty
(account constraint) and the handler requires a fully resolved status.
On success the game record (and the escrow account) are closed, so nothing
is returned. -/
def close_game (platform : Platform) (caller : Pubkey) (game : Game)
    (escrow : Nat) : Except SolFightError Unit :=
  if platform.authority ≠ caller then .error .Unauthorized
  else if escrow ≠ 0 then .error .EscrowNotEmpty
  else if game.status = .Settled ∨ game.status = .Forfeited ∨
          game.status = .Tied ∨ game.status = .Cancelled then .ok ()
  else .error .GameNotSettled

/-- end_game.rs handler together with its account constraints
(`has_one = authority` on the platform, status Active on the game). The
handler takes a required `winner_key` (the lib.rs entry point declares an
`Option<Pubkey>` plus an `is_forfeit` flag, but the handler it calls does
not), requires it to be one of the two players, and unconditionally sets
the status to Settled. The floating-point calculate_elo call is abstracted
as the parameter `eloFn : winner elo → loser elo → winner games → loser
games → (new winner elo, new loser elo)`; every other profile update (u32
counter bumps wrapping at 2^32, i64 checked_add on total_pnl) follows the
source. Returns (game, player-one profile, player-two profile). -/
def end_game (eloFn : Nat → Nat → Nat → Nat → Nat × Nat)
    (platform : Platform) (caller : Pubkey) (game : Game)
    (p1 p2 : PlayerProfile) (winner_key : Pubkey)
    (player_one_pnl player_two_pnl : Int) (now : Int) :
    Except SolFightError (Game × PlayerProfile × PlayerProfile) :=
  if platform.authority ≠ caller then .error .Unauthorized
  else if game.status ≠ .Active then .error .GameNotActive
  else if ¬(winner_key = game.player_one ∨ winner_key = game.player_two) then
    .error .NotAPlayer
  else
    let game1 := { game with
                   status := .Settled
                   winner := some winner_key
                   player_one_pnl := player_one_pnl
                   player_two_pnl := player_two_pnl
                   settled_at := now }
    let elo_pair :=
      eloFn (if winner_key = game.player_one then p1.elo_rating else p2.elo_rating)
            (if winner_key = game.player_one then p2.elo_rating else p1.elo_rating)
            (if winner_key = game.player_one then p1.games_played else p2.games_played)
            (if winner_key = game.player_one then p2.games_played else p1.games_played)
    match checked_add_i64 p1.total_pnl player_one_pnl with
    | none => .error .MathOverflow
    | some pnl1 =>
      let p1a := { p1 with
                   games_played := (p1.games_played + 1) % U32_LIMIT
                   total_pnl := pnl1 }
      let p1b :=
        if winner_key = game.player_one then
          { p1a with
            wins := (p1a.wins + 1) % U32_LIMIT
            current_streak := (p1a.current_streak + 1) % U32_LIMIT
            elo_rating := elo_pair.1 }
        else
          { p1a with
            losses := (p1a.losses + 1) % U32_LIMIT
            current_streak := 0
            elo_rating := elo_pair.2 }
      match checked_add_i64 p2.total_pnl player_two_pnl with
      | none => .error .MathOverflow
      | some pnl2 =>
        let p2a := { p2 with
                     games_played := (p2.games_played + 1) % U32_LIMIT
                     total_pnl := pnl2 }
        let p2b :=
          if winner_key = game.player_two then
            { p2a with
              wins := (p2a.wins + 1) % U32_LIMIT
              current_streak := (p2a.current_streak + 1) % U32_LIMIT
              elo_rating := elo_pair.1 }
          else
            { p2a with
              losses := (p2a.losses + 1) % U32_LIMIT
              current_streak := 0
              elo_rating := elo_pair.2 }
        .ok (game1, p1b, p2b)

/-- calculate_elo from end_game.rs restricted to the subdomain
winner_elo = loser_elo, where every step of the source's f64 computation
is exact, so the function below computes the very same values the source
does: the powf exponent (loser − winner)/400 is 0.0, IEEE pow gives
10^0 = 1.0 exactly, expected_winner = 1/(1+1) = 0.5 exactly; the K factors
are the integers 40.0 or 32.0, so k × 0.5 is exactly 20.0 or 16.0;
elo ± 20 is an integer below 2^53 (elo is u32), hence exact in f64 and
fixed by round; `.max(100.0)` on the loser is max with 100 (for elo below
the K half-step the real value is negative; natural subtraction truncates
it to 0, and max 100 gives the same 100 the source computes); the final
`as u32` cast saturates at u32::MAX on the winner's side. Takes the common
elo and the two games-played counts. -/
def calculate_elo_equal (elo winner_games loser_games : Nat) : Nat × Nat :=
  let k_winner : Nat := if winner_games < 30 then 40 else 32
  let k_loser : Nat := if loser_games < 30 then 40 else 32
  (min (elo + k_winner / 2) (U32_LIMIT - 1), max 100 (elo - k_loser / 2))

/-- The fee computed by claim_winnings never exceeds the pot while
fee_bps stays within the 0–2500 range enforced at initialization. -/
lemma fee_le_total_pot (total_pot fee_bps : Nat) (h : fee_bps ≤ 2500) :
    total_pot * fee_bps / 10000 ≤ total_pot := by
  have h1 : total_pot * fee_bps ≤ total_pot * 10000 :=
    Nat.mul_le_mul_left _ (h.trans (by norm_num))
  have h2 : total_pot * 10000 / 10000 = total_pot :=
    Nat.mul_div_cancel _ (by norm_num)
  calc total_pot * fee_bps / 10000
      ≤ total_pot * 10000 / 10000 := Nat.div_le_div_right h1
    _ = total_pot := h2

/-- Successful SPL transfers are characterised by their balance effect. -/
lemma transfer_eq_some {s d a s2 d2 : Nat}
    (h : transfer s d a = some (s2, d2)) :
    a ≤ s ∧ d + a < U64_LIMIT ∧ s2 = s - a ∧ d2 = d + a := by
  unfold transfer at h
  split at h
  · rename_i hc
    simp only [Option.some.injEq, Prod.mk.injEq] at h
    exact ⟨hc.1, hc.2, h.1.symm, h.2.symm⟩
  · simp at h

/-- Claim C1: for a successful claim with stake s > 0, fee_bps ≤ 2500 and
no u64 overflow in s × 2 or (s × 2) × fee_bps, the winner receives exactly
payout = s × 2 − fee with fee = (s × 2) × fee_bps / 10000 (so payout + fee
= s × 2), the escrow is drained by exactly s × 2, and the treasury receives
the fee exactly when fee > 0 and is untouched when fee = 0. -/
theorem c1_claim_accounting
    (platform : Platform) (game : Game) (caller : Pubkey)
    (escrow wb tb : Nat) (g2 : Game) (es2 wb2 tb2 : Nat)
    (hs : 0 < game.bet_amount) (hfee : platform.fee_bps ≤ 2500)
    (h2 : game.bet_amount * 2 < U64_LIMIT)
    (h3 : game.bet_amount * 2 * platform.fee_bps < U64_LIMIT)
    (hok : claim_winnings platform game caller escrow wb tb =
      .ok (g2, es2, wb2, tb2)) :
    wb2 = wb + (game.bet_amount * 2 -
                game.bet_amount * 2 * platform.fee_bps / 10000) ∧
    (game.bet_amount * 2 - game.bet_amount * 2 * platform.fee_bps / 10000) +
      game.bet_amount * 2 * platform.fee_bps / 10000 = game.bet_amount * 2 ∧
    es2 = escrow - game.bet_amount * 2 ∧
    (0 < game.bet_amount * 2 * platform.fee_bps / 10000 →
      tb2 = tb + game.bet_amount * 2 * platform.fee_bps / 10000) ∧
    (game.bet_amount * 2 * platform.fee_bps / 10000 = 0 → tb2 = tb) := by
  have hle : game.bet_amount * 2 * platform.fee_bps / 10000 ≤
      game.bet_amount * 2 := fee_le_total_pot _ _ hfee
  have e1 : checked_mul game.bet_amount 2 = some (game.bet_amount * 2) := by
    simp [checked_mul, h2]
  have e2 : checked_mul (game.bet_amount * 2) platform.fee_bps =
      some (game.bet_amount * 2 * platform.fee_bps) := by
    simp [checked_mul, h3]
  have e3 : checked_sub (game.bet_amount * 2)
      (game.bet_amount * 2 * platform.fee_bps / 10000) =
      some (game.bet_amount * 2 -
            game.bet_amount * 2 * platform.fee_bps / 10000) := by
    simp [checked_sub, hle]
  simp only [claim_winnings, e1, e2, e3] at hok
  split at hok
  · exact absurd hok (by simp)
  split at hok
  · exact absurd hok (by simp)
  split at hok
  · exact absurd hok (by simp)
  rename_i esa wba htr
  obtain ⟨hpay, -, hesa, hwba⟩ := transfer_eq_some htr
  split at hok
  · split at hok
    · exact absurd hok (by simp)
    rename_i hf esb tbb htr2
    obtain ⟨hfee2, -, hesb, htbb⟩ := transfer_eq_some htr2
    simp only [Except.ok.injEq, Prod.mk.injEq] at hok
    obtain ⟨-, hes, hwb, htb⟩ := hok
    refine ⟨by omega, by omega, by omega, fun _ => by omega, fun h0 => by omega⟩
  · rename_i hf
    simp only [Except.ok.injEq, Prod.mk.injEq] at hok
    obtain ⟨-, hes, hwb, htb⟩ := hok
    refine ⟨by omega, by omega, by omega, fun hcon => by omega, fun _ => by omega⟩

/-- Concrete platform fixture: authority 1, fee 250 bps, treasury 2. -/
def samplePlatform : Platform :=
  { authority := 1, fee_bps := 250, treasury := 2,
    total_games := 1, total_volume := 2000000 }

/-- Concrete settled game fixture: players 7 and 8, stake 1,000,000,
winner 7, both deposits made. -/
def sampleSettledGame : Game :=
  { game_id := 1, player_one := 7, player_two := 8, bet_amount := 1000000,
    timeframe_seconds := 300, escrow_token_account := 9, status := .Settled,
    winner := some 7, player_one_pnl := 0, player_two_pnl := 0,
    player_one_deposited := true, player_two_deposited := true,
    start_time := 100, end_time := 400, settled_at := 500 }

/-- Claim C1 witness: the concrete scenario stake 1,000,000 and fee_bps
250, where the claim pays 1,950,000 to the winner and 50,000 to the
treasury, and payout + fee recovers the full pot. -/
theorem c1_claim_accounting_witness :
    sampleSettledGame.bet_amount * 2 -
      sampleSettledGame.bet_amount * 2 * samplePlatform.fee_bps / 10000 +
      sampleSettledGame.bet_amount * 2 * samplePlatform.fee_bps / 10000 =
      sampleSettledGame.bet_amount * 2 ∧
    (1950000 : Nat) = 0 + (sampleSettledGame.bet_amount * 2 -
      sampleSettledGame.bet_amount * 2 * samplePlatform.fee_bps / 10000) := by
  have h := c1_claim_accounting samplePlatform sampleSettledGame 7 2000000 0 0
      sampleSettledGame 0 1950000 50000 (by decide) (by decide) (by decide)
      (by decide) (by rfl)
  exact ⟨h.2.1, h.1⟩

/-- Concrete active game fixture: both deposits in, match running. -/
def sampleActiveGame : Game :=
  { game_id := 1, player_one := 7, player_two := 8, bet_amount := 1000000,
    timeframe_seconds := 300, escrow_token_account := 9, status := .Active,
    winner := none, player_one_pnl := 0, player_two_pnl := 0,
    player_one_deposited := true, player_two_deposited := true,
    start_time := 100, end_time := 400, settled_at := 0 }

/-- Concrete tied game fixture (status as referenced by refund_escrow.rs). -/
def sampleTiedGame : Game :=
  { sampleActiveGame with status := .Tied }

/-- Concrete profile fixture for player 7. -/
def sampleProfileSeven : PlayerProfile :=
  { authority := 7, gamer_tag := "alice", elo_rating := 1200, wins := 0,
    losses := 0, total_pnl := 0, current_streak := 0, games_played := 0,
    created_at := 50 }

/-- Concrete profile fixture for player 8. -/
def sampleProfileEight : PlayerProfile :=
  { sampleProfileSeven with authority := 8, gamer_tag := "bob" }

/-- Claim C2: the end_game handler as implemented (end_game.rs) takes a
required winner key — required to be one of the two players — and
unconditionally moves the game to Settled with that winner recorded; it
never produces a Tied or a Forfeited match, although the lib.rs entry
point it serves advertises an optional winner plus an is_forfeit flag and
documents None-for-tie / forfeit semantics. -/
theorem c2_end_game_always_settled
    (eloFn : Nat → Nat → Nat → Nat → Nat × Nat)
    (platform : Platform) (caller : Pubkey) (game : Game)
    (p1 p2 : PlayerProfile) (wk : Pubkey) (a b now : Int)
    (g2 : Game) (q1 q2 : PlayerProfile)
    (hok : end_game eloFn platform caller game p1 p2 wk a b now =
      .ok (g2, q1, q2)) :
    g2.status = GameStatus.Settled ∧ g2.winner = some wk ∧
    (wk = game.player_one ∨ wk = game.player_two) := by
  unfold end_game at hok
  split at hok
  · exact absurd hok (by simp)
  split at hok
  · exact absurd hok (by simp)
  split at hok
  · exact absurd hok (by simp)
  rename_i h1 h2 h3
  repeat' split at hok
  all_goals first
    | exact Except.noConfusion hok
    | (simp only [Except.ok.injEq, Prod.mk.injEq] at hok
       obtain ⟨hg, -⟩ := hok
       subst hg
       exact ⟨rfl, rfl, not_not.mp h3⟩)

/-- Claim C2 witness: a concrete settlement (players 7/8, winner 7) that
indeed lands in Settled with the winner recorded. -/
theorem c2_end_game_always_settled_witness :
    GameStatus.Settled = GameStatus.Settled ∧
    some 7 = some 7 ∧
    ((7 : Pubkey) = sampleActiveGame.player_one ∨
      (7 : Pubkey) = sampleActiveGame.player_two) := by
  have h := c2_end_game_always_settled
      (fun w _ wg lg => calculate_elo_equal w wg lg) samplePlatform 1
      sampleActiveGame sampleProfileSeven sampleProfileEight 7 50 (-50) 600
      { sampleActiveGame with
        status := .Settled
        winner := some 7
        player_one_pnl := 50
        player_two_pnl := -50
        settled_at := 600 }
      { sampleProfileSeven with
        games_played := 1
        total_pnl := 50
        wins := 1
        current_streak := 1
        elo_rating := 1220 }
      { sampleProfileEight with
        games_played := 1
        total_pnl := -50
        losses := 1
        current_streak := 0
        elo_rating := 1180 }
      (by rfl)
  exact ⟨rfl, rfl, h.2.2⟩

/-- Claim C3: each terminal operation is guarded by the state machine — a
successful settlement implies the game was Active; a successful claim
implies the status was Settled or Forfeited and the caller was the
recorded winner; a successful refund implies Tied or Cancelled; a
successful close implies an empty escrow and a resolved status. In the
transactional embedding every guarded failure is an `Except.error` that
carries no state, so a disallowed attempt mutates nothing. -/
theorem c3_state_machine_guards :
    (∀ eloFn platform caller game p1 p2 wk a b now r,
      end_game eloFn platform caller game p1 p2 wk a b now = .ok r →
      game.status = GameStatus.Active) ∧
    (∀ platform game caller escrow wb tb r,
      claim_winnings platform game caller escrow wb tb = .ok r →
      (game.status = GameStatus.Settled ∨
       game.status = GameStatus.Forfeited) ∧ game.winner = some caller) ∧
    (∀ game escrow b1 b2 r,
      refund_escrow game escrow b1 b2 = .ok r →
      game.status = GameStatus.Tied ∨ game.status = GameStatus.Cancelled) ∧
    (∀ platform caller game escrow r,
      close_game platform caller game escrow = .ok r →
      escrow = 0 ∧ (game.status = GameStatus.Settled ∨
        game.status = GameStatus.Forfeited ∨ game.status = GameStatus.Tied ∨
        game.status = GameStatus.Cancelled)) := by
  refine ⟨?_, ?_, ?_, ?_⟩
  · intro eloFn platform caller game p1 p2 wk a b now r hok
    unfold end_game at hok
    split at hok
    · exact absurd hok (by simp)
    split at hok
    · exact absurd hok (by simp)
    · rename_i h1 h2
      exact not_not.mp h2
  · intro platform game caller escrow wb tb r hok
    unfold claim_winnings at hok
    split at hok
    · exact absurd hok (by simp)
    split at hok
    · rename_i h1 h2
      exact absurd hok (by simp)
    · rename_i h1 h2
      exact ⟨not_not.mp h1, not_not.mp h2⟩
  · intro game escrow b1 b2 r hok
    unfold refund_escrow at hok
    split at hok
    · exact absurd hok (by simp)
    · rename_i h1
      exact not_not.mp h1
  · intro platform caller game escrow r hok
    unfold close_game at hok
    split at hok
    · exact absurd hok (by simp)
    split at hok
    · exact absurd hok (by simp)
    split at hok
    · rename_i h1 h2 h3
      exact ⟨not_not.mp h2, h3⟩
    · exact absurd hok (by simp)

/-- Claim C3 witness: a concrete successful settlement, claim, refund and
close, each certifying its guard held. -/
theorem c3_state_machine_guards_witness :
    sampleActiveGame.status = GameStatus.Active ∧
    ((sampleSettledGame.status = GameStatus.Settled ∨
      sampleSettledGame.status = GameStatus.Forfeited) ∧
     sampleSettledGame.winner = some 7) ∧
    (sampleTiedGame.status = GameStatus.Tied ∨
     sampleTiedGame.status = GameStatus.Cancelled) ∧
    ((0 : Nat) = 0 ∧ (sampleSettledGame.status = GameStatus.Settled ∨
      sampleSettledGame.status = GameStatus.Forfeited ∨
      sampleSettledGame.status = GameStatus.Tied ∨
      sampleSettledGame.status = GameStatus.Cancelled)) := by
  refine ⟨?_, ?_, ?_, ?_⟩
  · exact c3_state_machine_guards.1 (fun w _ wg lg => calculate_elo_equal w wg lg)
      samplePlatform 1 sampleActiveGame sampleProfileSeven sampleProfileEight
      7 50 (-50) 600 _ (by rfl)
  · exact c3_state_machine_guards.2.1 samplePlatform sampleSettledGame 7
      2000000 0 0 _ (by rfl)
  · exact c3_state_machine_guards.2.2.1 sampleTiedGame 2000000 0 0 _ (by rfl)
  · exact c3_state_machine_guards.2.2.2 samplePlatform 1 sampleSettledGame 0 _
      (by rfl)

/-- Checked i64 additions that succeed return the exact sum. -/
lemma checked_add_i64_eq_some {a b c : Int}
    (h : checked_add_i64 a b = some c) :
    c = a + b ∧ I64_MIN ≤ a + b ∧ a + b ≤ I64_MAX := by
  unfold checked_add_i64 at h
  split at h
  · rename_i hc
    cases h
    exact ⟨rfl, hc.1, hc.2⟩
  · cases h

/-- Successful deposits characterised: the preconditions that must have
held and the exact resulting state, split by which player deposited and
whether the deposit activated the match. -/
lemma deposit_ok_form {game : Game} {escrow pb : Nat} {player : Pubkey}
    {now : Int} {g1 : Game} {es1 pb1 : Nat}
    (hok : deposit_to_escrow game escrow pb player now = .ok (g1, es1, pb1)) :
    game.status = GameStatus.Pending ∧
    (player = game.player_one ∨ player = game.player_two) ∧
    game.bet_amount ≤ pb ∧
    es1 = escrow + game.bet_amount ∧ pb1 = pb - game.bet_amount ∧
    ((player = game.player_one ∧ game.player_one_deposited = false ∧
      ((game.player_two_deposited = true ∧
        g1 = { game with
               player_one_deposited := true
               status := GameStatus.Active
               start_time := now
               end_time := now + (game.timeframe_seconds : Int) }) ∨
       (game.player_two_deposited = false ∧
        g1 = { game with player_one_deposited := true }))) ∨
     (player ≠ game.player_one ∧ player = game.player_two ∧
      game.player_two_deposited = false ∧
      ((game.player_one_deposited = true ∧
        g1 = { game with
               player_two_deposited := true
               status := GameStatus.Active
               start_time := now
               end_time := now + (game.timeframe_seconds : Int) }) ∨
       (game.player_one_deposited = false ∧
        g1 = { game with player_two_deposited := true })))) := by
  unfold deposit_to_escrow at hok
  split at hok
  · exact Except.noConfusion hok
  rename_i hst
  split at hok
  · exact Except.noConfusion hok
  rename_i hpart
  have hst2 : game.status = GameStatus.Pending := not_not.mp hst
  have hpart2 : player = game.player_one ∨ player = game.player_two :=
    not_not.mp hpart
  split at hok
  · exact Except.noConfusion hok
  rename_i hnd1
  split at hok
  · exact Except.noConfusion hok
  rename_i hnd2
  split at hok
  · exact Except.noConfusion hok
  rename_i pr pb2 es2 htr
  obtain ⟨hamt, hlim, hpb2, hes2⟩ := transfer_eq_some htr
  by_cases hp1 : player = game.player_one
  · have hd1 : game.player_one_deposited = false := by
      cases hfl : game.player_one_deposited with
      | false => rfl
      | true => exact absurd ⟨hp1, hfl⟩ hnd1
    rw [if_pos hp1] at hok
    dsimp only [] at hok
    by_cases hd2 : game.player_two_deposited
    · split at hok
      · split at hok
        · exact Except.noConfusion hok
        · rename_i endt hadd
          obtain ⟨hendt, -, -⟩ := checked_add_i64_eq_some hadd
          simp only [Except.ok.injEq, Prod.mk.injEq] at hok
          obtain ⟨hg, hes, hpb⟩ := hok
          subst hendt
          refine ⟨hst2, hpart2, hamt, by omega, by omega,
            Or.inl ⟨hp1, hd1, Or.inl ⟨hd2, hg.symm⟩⟩⟩
      · rename_i hcond
        exact absurd ⟨rfl, hd2⟩ hcond
    · have hd2f : game.player_two_deposited = false := by
        cases hfl : game.player_two_deposited with
        | false => rfl
        | true => exact absurd hfl hd2
      split at hok
      · rename_i hcond
        exact absurd hcond.2 hd2
      · simp only [Except.ok.injEq, Prod.mk.injEq] at hok
        obtain ⟨hg, hes, hpb⟩ := hok
        refine ⟨hst2, hpart2, hamt, by omega, by omega,
          Or.inl ⟨hp1, hd1, Or.inr ⟨hd2f, hg.symm⟩⟩⟩
  · have hp2 : player = game.player_two := hpart2.resolve_left hp1
    have hd2 : game.player_two_deposited = false := by
      cases hfl : game.player_two_deposited with
      | false => rfl
      | true => exact absurd ⟨hp1, hfl⟩ hnd2
    rw [if_neg hp1] at hok
    dsimp only [] at hok
    by_cases hd1 : game.player_one_deposited
    · split at hok
      · split at hok
        · exact Except.noConfusion hok
        · rename_i endt hadd
          obtain ⟨hendt, -, -⟩ := checked_add_i64_eq_some hadd
          simp only [Except.ok.injEq, Prod.mk.injEq] at hok
          obtain ⟨hg, hes, hpb⟩ := hok
          subst hendt
          refine ⟨hst2, hpart2, hamt, by omega, by omega,
            Or.inr ⟨hp1, hp2, hd2, Or.inl ⟨hd1, hg.symm⟩⟩⟩
      · rename_i hcond
        exact absurd ⟨hd1, rfl⟩ hcond
    · have hd1f : game.player_one_deposited = false := by
        cases hfl : game.player_one_deposited with
        | false => rfl
        | true => exact absurd hfl hd1
      split at hok
      · rename_i hcond
        exact absurd hcond.1 hd1
      · simp only [Except.ok.injEq, Prod.mk.injEq] at hok
        obtain ⟨hg, hes, hpb⟩ := hok
        refine ⟨hst2, hpart2, hamt, by omega, by omega,
          Or.inr ⟨hp1, hp2, hd2, Or.inr ⟨hd1f, hg.symm⟩⟩⟩

/-- Checked u64 multiplications that succeed return the exact product. -/
lemma checked_mul_eq_some {a b c : Nat} (h : checked_mul a b = some c) :
    c = a * b ∧ a * b < U64_LIMIT := by
  unfold checked_mul at h
  split at h
  · rename_i hc
    cases h
    exact ⟨rfl, hc⟩
  · cases h

/-- Checked u64 additions that succeed return the exact sum. -/
lemma checked_add_eq_some {a b c : Nat} (h : checked_add a b = some c) :
    c = a + b ∧ a + b < U64_LIMIT := by
  unfold checked_add at h
  split at h
  · rename_i hc
    cases h
    exact ⟨rfl, hc⟩
  · cases h

/-- Successful refunds characterised: the status guard that held, the
untouched game record, and the exact balance movements. -/
lemma refund_ok_form {game : Game} {escrow b1 b2 : Nat} {g1 : Game}
    {es1 r1 r2 : Nat}
    (hok : refund_escrow game escrow b1 b2 = .ok (g1, es1, r1, r2)) :
    (game.status = GameStatus.Tied ∨ game.status = GameStatus.Cancelled) ∧
    g1 = game ∧
    r1 = b1 + (if game.player_one_deposited = true then game.bet_amount else 0) ∧
    r2 = b2 + (if game.player_two_deposited = true then game.bet_amount else 0) ∧
    es1 = escrow -
      ((if game.player_one_deposited = true then game.bet_amount else 0) +
       (if game.player_two_deposited = true then game.bet_amount else 0)) := by
  unfold refund_escrow at hok
  split at hok
  · exact Except.noConfusion hok
  rename_i hstat
  have hstat2 := not_not.mp hstat
  dsimp only [] at hok
  by_cases hd1 : game.player_one_deposited = true
  · rw [if_pos hd1] at hok
    split at hok
    · exact Except.noConfusion hok
    rename_i pr1 esa b1a htr1
    obtain ⟨hle1, -, hesa, hb1a⟩ := transfer_eq_some htr1
    by_cases hd2 : game.player_two_deposited = true
    · rw [if_pos hd2] at hok
      split at hok
      · exact Except.noConfusion hok
      rename_i pr2 esb b2a htr2
      obtain ⟨hle2, -, hesb, hb2a⟩ := transfer_eq_some htr2
      simp only [Except.ok.injEq, Prod.mk.injEq] at hok
      obtain ⟨hg, hes, h1, h2⟩ := hok
      rw [if_pos hd1, if_pos hd2]
      exact ⟨hstat2, hg.symm, by omega, by omega, by omega⟩
    · rw [if_neg hd2] at hok
      dsimp only [] at hok
      simp only [Except.ok.injEq, Prod.mk.injEq] at hok
      obtain ⟨hg, hes, h1, h2⟩ := hok
      rw [if_pos hd1, if_neg hd2]
      exact ⟨hstat2, hg.symm, by omega, by omega, by omega⟩
  · rw [if_neg hd1] at hok
    dsimp only [] at hok
    by_cases hd2 : game.player_two_deposited = true
    · rw [if_pos hd2] at hok
      split at hok
      · exact Except.noConfusion hok
      rename_i pr2 esb b2a htr2
      obtain ⟨hle2, -, hesb, hb2a⟩ := transfer_eq_some htr2
      simp only [Except.ok.injEq, Prod.mk.injEq] at hok
      obtain ⟨hg, hes, h1, h2⟩ := hok
      rw [if_neg hd1, if_pos hd2]
      exact ⟨hstat2, hg.symm, by omega, by omega, by omega⟩
    · rw [if_neg hd2] at hok
      dsimp only [] at hok
      simp only [Except.ok.injEq, Prod.mk.injEq] at hok
      obtain ⟨hg, hes, h1, h2⟩ := hok
      rw [if_neg hd1, if_neg hd2]
      exact ⟨hstat2, hg.symm, by omega, by omega, by omega⟩

/-- Claim C5: a successful refund returns exactly bet_amount from the
escrow to each player whose deposit flag is set and nothing to a player
whose flag is unset, with no fee ever deducted: each credited amount is the
full bet_amount and the escrow loses exactly the sum of the credited
refunds. -/
theorem c5_refund_exact
    (game : Game) (escrow b1 b2 : Nat) (g1 : Game) (es1 r1 r2 : Nat)
    (hok : refund_escrow game escrow b1 b2 = .ok (g1, es1, r1, r2)) :
    r1 = b1 + (if game.player_one_deposited = true then game.bet_amount else 0) ∧
    r2 = b2 + (if game.player_two_deposited = true then game.bet_amount else 0) ∧
    es1 = escrow -
      ((if game.player_one_deposited = true then game.bet_amount else 0) +
       (if game.player_two_deposited = true then game.bet_amount else 0)) := by
  obtain ⟨-, -, h1, h2, h3⟩ := refund_ok_form hok
  exact ⟨h1, h2, h3⟩

/-- Concrete pending game fixture: freshly created, no deposits yet. -/
def samplePendingGame : Game :=
  { sampleActiveGame with
    status := .Pending
    player_one_deposited := false
    player_two_deposited := false
    start_time := 0
    end_time := 0 }

/-- Concrete cancelled game fixture in which only player one deposited. -/
def sampleCancelledP1Game : Game :=
  { samplePendingGame with
    status := .Cancelled
    player_one_deposited := true }

/-- Claim C5 witness: the Cancelled match where only player one deposited
their 1,000,000 stake — the refund returns exactly the stake to player
one, nothing to player two, and empties the escrow. -/
theorem c5_refund_exact_witness :
    (1000000 : Nat) = 0 +
      (if sampleCancelledP1Game.player_one_deposited = true
       then sampleCancelledP1Game.bet_amount else 0) ∧
    (0 : Nat) = 0 +
      (if sampleCancelledP1Game.player_two_deposited = true
       then sampleCancelledP1Game.bet_amount else 0) ∧
    (0 : Nat) = 1000000 -
      ((if sampleCancelledP1Game.player_one_deposited = true
        then sampleCancelledP1Game.bet_amount else 0) +
       (if sampleCancelledP1Game.player_two_deposited = true
        then sampleCancelledP1Game.bet_amount else 0)) := by
  exact c5_refund_exact sampleCancelledP1Game 1000000 0 0
    sampleCancelledP1Game 0 1000000 0 (by rfl)

/-- Claim C8: a successful deposit leaves the match Active exactly when
both deposit flags are set afterwards; on activation start_time is stamped
with the current time and end_time − start_time equals the timeframe
exactly; without activation the match stays Pending with both timestamps
unchanged (hence still zero on a freshly created match). -/
theorem c8_activation_iff_both_flags
    (game : Game) (escrow pb : Nat) (player : Pubkey) (now : Int)
    (g1 : Game) (es1 pb1 : Nat)
    (hok : deposit_to_escrow game escrow pb player now = .ok (g1, es1, pb1)) :
    (g1.status = GameStatus.Active ↔
      (g1.player_one_deposited = true ∧ g1.player_two_deposited = true)) ∧
    (g1.status = GameStatus.Active →
      g1.start_time = now ∧
      g1.end_time - g1.start_time = (game.timeframe_seconds : Int)) ∧
    (g1.status ≠ GameStatus.Active →
      g1.status = GameStatus.Pending ∧ g1.start_time = game.start_time ∧
      g1.end_time = game.end_time) := by
  obtain ⟨hst2, hpart, hamt, hes, hpb, hform⟩ := deposit_ok_form hok
  rcases hform with ⟨hp1, hd1, ⟨hd2, hg⟩ | ⟨hd2, hg⟩⟩ |
    ⟨hp1, hp2, hd2, ⟨hd1, hg⟩ | ⟨hd1, hg⟩⟩
  · subst hg
    refine ⟨by simp [hd2], fun _ => ⟨rfl, by dsimp only []; omega⟩,
      fun hne => absurd rfl hne⟩
  · subst hg
    refine ⟨by simp [hst2, hd2], fun hact => ?_, fun _ => ⟨hst2, rfl, rfl⟩⟩
    rw [show ({ game with player_one_deposited := true } : Game).status =
      game.status from rfl, hst2] at hact
    exact absurd hact (by simp)
  · subst hg
    refine ⟨by simp [hd1], fun _ => ⟨rfl, by dsimp only []; omega⟩,
      fun hne => absurd rfl hne⟩
  · subst hg
    refine ⟨by simp [hst2, hd1], fun hact => ?_, fun _ => ⟨hst2, rfl, rfl⟩⟩
    rw [show ({ game with player_two_deposited := true } : Game).status =
      game.status from rfl, hst2] at hact
    exact absurd hact (by simp)

/-- Concrete fixture: the pending game after player one deposited. -/
def sampleP1DepositedGame : Game :=
  { samplePendingGame with player_one_deposited := true }

/-- Concrete fixture: the game after both players deposited, activated at
time 110 with a 300-second timeframe. -/
def sampleActivatedGame : Game :=
  { samplePendingGame with
    player_one_deposited := true
    player_two_deposited := true
    status := .Active
    start_time := 110
    end_time := 410 }

/-- Claim C8 witness: player two's deposit at time 110 on the
player-one-deposited game activates it; end_time − start_time is exactly
the 300-second timeframe. -/
theorem c8_activation_iff_both_flags_witness :
    (sampleActivatedGame.status = GameStatus.Active ↔
      (sampleActivatedGame.player_one_deposited = true ∧
       sampleActivatedGame.player_two_deposited = true)) ∧
    (sampleActivatedGame.status = GameStatus.Active →
      sampleActivatedGame.start_time = 110 ∧
      sampleActivatedGame.end_time - sampleActivatedGame.start_time =
        (sampleP1DepositedGame.timeframe_seconds : Int)) ∧
    (sampleActivatedGame.status ≠ GameStatus.Active →
      sampleActivatedGame.status = GameStatus.Pending ∧
      sampleActivatedGame.start_time = sampleP1DepositedGame.start_time ∧
      sampleActivatedGame.end_time = sampleP1DepositedGame.end_time) := by
  exact c8_activation_iff_both_flags sampleP1DepositedGame 1000000 1000000 8
    110 sampleActivatedGame 2000000 0 (by rfl)

/-- Claim C4 counterexample: player 7 deposits, player 8 deposits (the
match activates), then player 7 attempts a second deposit — it fails, but
with GameNotPending (the status guard fires first on the now-Active
match), not with the already-deposited error the claim promises for every
ordering. -/
theorem c4_counterexample_error_after_activation :
    deposit_to_escrow samplePendingGame 0 1000000 7 100 =
      .ok (sampleP1DepositedGame, 1000000, 0) ∧
    deposit_to_escrow sampleP1DepositedGame 1000000 1000000 8 110 =
      .ok (sampleActivatedGame, 2000000, 0) ∧
    deposit_to_escrow sampleActivatedGame 2000000 1000000 7 120 =
      .error SolFightError.GameNotPending ∧
    SolFightError.GameNotPending ≠ SolFightError.AlreadyDeposited := by
  exact ⟨rfl, rfl, rfl, by decide⟩

/-- Claim C4 (amended): a second deposit by the same player on the same
match always fails and leaves no state behind — with the already-deposited
error while the match is still Pending, and with the game-not-pending
error once the other player's deposit has activated the match. -/
theorem c4_second_deposit_always_fails
    (game : Game) (escrow pb : Nat) (player : Pubkey) (now : Int)
    (g1 : Game) (es1 pb1 : Nat)
    (hok : deposit_to_escrow game escrow pb player now = .ok (g1, es1, pb1)) :
    (∀ e2 b2 n2,
      (g1.status = GameStatus.Pending →
        deposit_to_escrow g1 e2 b2 player n2 =
          .error SolFightError.AlreadyDeposited) ∧
      (g1.status ≠ GameStatus.Pending →
        deposit_to_escrow g1 e2 b2 player n2 =
          .error SolFightError.GameNotPending)) ∧
    (∀ q e3 b3 n3 g2 es2 pb2,
      deposit_to_escrow g1 e3 b3 q n3 = .ok (g2, es2, pb2) →
      ∀ e4 b4 n4,
        deposit_to_escrow g2 e4 b4 player n4 =
          .error SolFightError.GameNotPending) := by
  obtain ⟨hst2, hpart, -, -, -, hform⟩ := deposit_ok_form hok
  constructor
  · intro e2 b2 n2
    rcases hform with ⟨hp1, hd1, ⟨hd2, hg⟩ | ⟨hd2, hg⟩⟩ |
      ⟨hp1, hp2, hd2, ⟨hd1, hg⟩ | ⟨hd1, hg⟩⟩
    · subst hg
      constructor
      · intro hpend
        exact absurd hpend (by simp)
      · intro _
        simp [deposit_to_escrow]
    · subst hg
      constructor
      · intro _
        simp [deposit_to_escrow, hst2, hp1]
      · intro hne
        exact absurd hst2 hne
    · subst hg
      constructor
      · intro hpend
        exact absurd hpend (by simp)
      · intro _
        simp [deposit_to_escrow]
    · subst hg
      constructor
      · intro _
        have hh : game.player_two ≠ game.player_one :=
          fun h => hp1 (hp2.trans h)
        simp [deposit_to_escrow, hst2, hp2, hh]
      · intro hne
        exact absurd hst2 hne
  · intro q e3 b3 n3 g2 es2 pb2 hok2 e4 b4 n4
    obtain ⟨hst3, -, -, -, -, hform2⟩ := deposit_ok_form hok2
    have hg2 : g2.status = GameStatus.Active := by
      rcases hform with ⟨hp1, hd1, ⟨hd2, hg⟩ | ⟨hd2, hg⟩⟩ |
        ⟨hp1, hp2, hd2, ⟨hd1, hg⟩ | ⟨hd1, hg⟩⟩
      · subst hg
        simp at hst3
      · subst hg
        rcases hform2 with ⟨hq1, hqd1, hcase⟩ | ⟨hq1, hq2, hqd2, hcase⟩
        · simp at hqd1
        · rcases hcase with ⟨hqd1, hg2⟩ | ⟨hqd1, hg2⟩
          · subst hg2
            rfl
          · simp at hqd1
      · subst hg
        simp at hst3
      · subst hg
        rcases hform2 with ⟨hq1, hqd1, hcase⟩ | ⟨hq1, hq2, hqd2, hcase⟩
        · rcases hcase with ⟨hqd2, hg2⟩ | ⟨hqd2, hg2⟩
          · subst hg2
            rfl
          · simp at hqd2
        · simp at hqd2
    unfold deposit_to_escrow
    rw [if_pos (by simp [hg2])]

/-- Claim C4 (amended) witness: after player 7's first deposit, player 7's
immediate second deposit is rejected (the match is still Pending, so with
the already-deposited error), and after player 8's deposit activates the
match, player 7's third attempt is rejected with the game-not-pending
error. -/
theorem c4_second_deposit_always_fails_witness :
    deposit_to_escrow sampleP1DepositedGame 1000000 500 7 105 =
      .error SolFightError.AlreadyDeposited ∧
    deposit_to_escrow sampleActivatedGame 2000000 700 7 130 =
      .error SolFightError.GameNotPending := by
  have h := c4_second_deposit_always_fails samplePendingGame 0 1000000 7 100
    sampleP1DepositedGame 1000000 0 (by rfl)
  exact ⟨(h.1 1000000 500 105).1 (by rfl),
    h.2 8 1000000 1000000 110 sampleActivatedGame 2000000 0 (by rfl) 2000000 700 130⟩

/-- Claim C10: neither claim_winnings nor refund_escrow changes any field
of the Game record, so a repeat passes every state-machine and
authorization guard again; once a claim or refund of the game has
succeeded, the guards and the checked arithmetic are known to pass, so any
failing re-execution can only fail in a token transfer (insufficient
escrow balance). -/
theorem c10_claim_refund_frame :
    (∀ platform game caller escrow wb tb g2 es2 wb2 tb2,
      claim_winnings platform game caller escrow wb tb =
        .ok (g2, es2, wb2, tb2) →
      g2 = game ∧
      ∀ e w t r, claim_winnings platform game caller e w t = .error r →
        r = SolFightError.TransferFailed) ∧
    (∀ game escrow b1 b2 g1 es1 r1 r2,
      refund_escrow game escrow b1 b2 = .ok (g1, es1, r1, r2) →
      g1 = game ∧
      ∀ e c d r, refund_escrow game e c d = .error r →
        r = SolFightError.TransferFailed) := by
  constructor
  · intro platform game caller escrow wb tb g2 es2 wb2 tb2 hok
    unfold claim_winnings at hok
    split at hok
    · exact Except.noConfusion hok
    rename_i hstat
    split at hok
    · exact Except.noConfusion hok
    rename_i hwin
    split at hok
    · exact Except.noConfusion hok
    rename_i tp heq1
    split at hok
    · exact Except.noConfusion hok
    rename_i gross heq2
    dsimp only [] at hok
    split at hok
    · exact Except.noConfusion hok
    rename_i payout heq3
    have hgframe : g2 = game := by
      split at hok
      · exact Except.noConfusion hok
      rename_i esa wba htr
      split at hok
      · split at hok
        · exact Except.noConfusion hok
        · simp only [Except.ok.injEq, Prod.mk.injEq] at hok
          exact hok.1.symm
      · simp only [Except.ok.injEq, Prod.mk.injEq] at hok
        exact hok.1.symm
    refine ⟨hgframe, ?_⟩
    intro e w t r herr
    unfold claim_winnings at herr
    rw [if_neg hstat, if_neg hwin, heq1] at herr
    dsimp only [] at herr
    rw [heq2] at herr
    dsimp only [] at herr
    rw [heq3] at herr
    dsimp only [] at herr
    split at herr
    · simp only [Except.error.injEq] at herr
      exact herr.symm
    split at herr
    · split at herr
      · simp only [Except.error.injEq] at herr
        exact herr.symm
      · exact Except.noConfusion herr
    · exact Except.noConfusion herr
  · intro game escrow b1 b2 g1 es1 r1 r2 hok
    obtain ⟨hstat2, hgframe, -, -, -⟩ := refund_ok_form hok
    refine ⟨hgframe, ?_⟩
    intro e c d r herr
    unfold refund_escrow at herr
    rw [if_neg (not_not_intro hstat2)] at herr
    dsimp only [] at herr
    split at herr
    · simp only [Except.error.injEq] at herr
      exact herr.symm
    split at herr
    · simp only [Except.error.injEq] at herr
      exact herr.symm
    · exact Except.noConfusion herr

/-- Claim C10 witness: the concrete settled game is claimed once
successfully (leaving the record untouched), and its immediate repeat on
the emptied escrow fails precisely with the transfer error; likewise the
tied game refunds once and a repeat on the emptied escrow fails with the
transfer error. -/
theorem c10_claim_refund_frame_witness :
    sampleSettledGame = sampleSettledGame ∧
    SolFightError.TransferFailed = SolFightError.TransferFailed ∧
    sampleTiedGame = sampleTiedGame := by
  have hclaim := c10_claim_refund_frame.1 samplePlatform sampleSettledGame 7
    2000000 0 0 sampleSettledGame 0 1950000 50000 (by rfl)
  have hrefund := c10_claim_refund_frame.2 sampleTiedGame 2000000 0 0
    sampleTiedGame 0 1000000 1000000 (by rfl)
  exact ⟨hclaim.1,
    hclaim.2 0 1950000 50000 SolFightError.TransferFailed (by rfl),
    hrefund.1⟩

/-- Repeated match creation: runs start_game N times, threading the
platform through and discarding the created game records. -/
def start_n (caller p1k p2k : Pubkey) (bet tf esc : Nat) :
    Nat → Platform → Except SolFightError Platform
  | 0, p => .ok p
  | n + 1, p =>
    match start_n caller p1k p2k bet tf esc n p with
    | .error e => .error e
    | .ok p1 =>
      match start_game p1 caller p1k p2k bet tf esc with
      | .error e => .error e
      | .ok (p2, _) => .ok p2

/-- Claim C6: every successful match creation increments total_games by
exactly 1 (barring u64 wrap of the counter), gives the new match the
incremented counter as its id, and adds exactly 2 × stake to total_volume
(which therefore never decreases); starting from initialize_platform, N
creations with stake S leave total_volume = N × 2S and total_games = N. -/
theorem c6_volume_accounting :
    (∀ platform caller p1k p2k bet tf esc p2 g,
      start_game platform caller p1k p2k bet tf esc = .ok (p2, g) →
      platform.total_games + 1 < U64_LIMIT →
      p2.total_games = platform.total_games + 1 ∧
      g.game_id = platform.total_games + 1 ∧
      p2.total_volume = platform.total_volume + bet * 2 ∧
      platform.total_volume ≤ p2.total_volume) ∧
    (∀ authority treasury fee_bps caller p1k p2k bet tf esc N plat pN,
      initialize_platform authority treasury fee_bps = .ok plat →
      start_n caller p1k p2k bet tf esc N plat = .ok pN →
      N < U64_LIMIT →
      pN.total_games = N ∧ pN.total_volume = N * (bet * 2)) := by
  have hstep : ∀ platform caller p1k p2k bet tf esc p2 g,
      start_game platform caller p1k p2k bet tf esc = .ok (p2, g) →
      platform.total_games + 1 < U64_LIMIT →
      p2.total_games = platform.total_games + 1 ∧
      g.game_id = platform.total_games + 1 ∧
      p2.total_volume = platform.total_volume + bet * 2 ∧
      platform.total_volume ≤ p2.total_volume := by
    intro platform caller p1k p2k bet tf esc p2 g hok hng
    unfold start_game at hok
    split at hok
    · exact Except.noConfusion hok
    split at hok
    · exact Except.noConfusion hok
    dsimp only [] at hok
    split at hok
    · exact Except.noConfusion hok
    rename_i doubled heq1
    split at hok
    · exact Except.noConfusion hok
    rename_i vol heq2
    obtain ⟨hd, -⟩ := checked_mul_eq_some heq1
    obtain ⟨hv, -⟩ := checked_add_eq_some heq2
    simp only [Except.ok.injEq, Prod.mk.injEq] at hok
    obtain ⟨hp, hg⟩ := hok
    subst hp hg hd hv
    have hmod : (platform.total_games + 1) % U64_LIMIT =
        platform.total_games + 1 := Nat.mod_eq_of_lt hng
    exact ⟨hmod, hmod, rfl, by dsimp only []; omega⟩
  refine ⟨hstep, ?_⟩
  intro authority treasury fee_bps caller p1k p2k bet tf esc N plat pN
    hinit hrun hN
  have hplat : plat.total_games = 0 ∧ plat.total_volume = 0 := by
    unfold initialize_platform at hinit
    split at hinit
    · simp only [Except.ok.injEq] at hinit
      subst hinit
      exact ⟨rfl, rfl⟩
    · exact Except.noConfusion hinit
  clear hinit
  have haux : ∀ M qM, start_n caller p1k p2k bet tf esc M plat = .ok qM →
      M < U64_LIMIT →
      qM.total_games = M ∧ qM.total_volume = M * (bet * 2) := by
    intro M
    induction M with
    | zero =>
      intro qM hr hM
      unfold start_n at hr
      simp only [Except.ok.injEq] at hr
      subst hr
      simpa using hplat
    | succ n ih =>
      intro qM hr hM
      unfold start_n at hr
      split at hr
      · exact Except.noConfusion hr
      rename_i p1 hr1
      split at hr
      · exact Except.noConfusion hr
      rename_i q g hstep1
      simp only [Except.ok.injEq] at hr
      subst hr
      obtain ⟨ihg, ihv⟩ := ih p1 hr1 (by omega)
      have hlt : p1.total_games + 1 < U64_LIMIT := by omega
      obtain ⟨h1, -, h3, -⟩ :=
        hstep p1 caller p1k p2k bet tf esc q g hstep1 hlt
      constructor
      · omega
      · rw [h3, ihv]
        ring
  exact haux N pN hrun hN

/-- Claim C6 witness: from a fresh platform, a single creation yields
total_games 1 / game id 1 / volume 2,000,000, and two creations with stake
1,000,000 leave total_games 2 and total_volume 2 × 2,000,000. -/
theorem c6_volume_accounting_witness :
    ((samplePlatform.total_games : Nat) = 0 + 1 ∧
     (samplePendingGame.game_id : Nat) = 0 + 1 ∧
     (samplePlatform.total_volume : Nat) = 0 + 1000000 * 2 ∧
     (0 : Nat) ≤ samplePlatform.total_volume) ∧
    ({ samplePlatform with
       total_games := 2
       total_volume := 4000000 } : Platform).total_games = 2 ∧
    ({ samplePlatform with
       total_games := 2
       total_volume := 4000000 } : Platform).total_volume =
      2 * (1000000 * 2) := by
  have h1 := c6_volume_accounting.1
    { authority := 1, fee_bps := 250, treasury := 2,
      total_games := 0, total_volume := 0 } 1 7 8 1000000 300 9
    samplePlatform samplePendingGame (by rfl) (by decide)
  have h2 := c6_volume_accounting.2 1 2 250 1 7 8 1000000 300 9 2
    { authority := 1, fee_bps := 250, treasury := 2,
      total_games := 0, total_volume := 0 }
    { samplePlatform with total_games := 2, total_volume := 4000000 }
    (by rfl) (by rfl) (by decide)
  exact ⟨h1, h2⟩

/-- Claim C7 counterexample: two players both rated 0 with 0 games each —
an input on which the source's f64 computation is exact — leave the winner
at rating 20, strictly below 100: calculate_elo floors only the loser's
rating, not the winner's. -/
theorem c7_counterexample_winner_below_100 :
    (calculate_elo_equal 0 0 0).1 = 20 ∧ (calculate_elo_equal 0 0 0).1 < 100 ∧
    (calculate_elo_equal 0 0 0).2 = 100 := by
  refine ⟨by decide, by decide, by decide⟩

/-- Claim C7 (amended): the K factor is 40 for a player with fewer than 30
games played and 32 otherwise, chosen independently for winner and loser;
at equal ratings the winner gains exactly round(K × 0.5) = K / 2 and the
loser symmetrically loses K / 2 subject to the floor, the LOSER's returned
rating is never below 100 (the winner's rating is not floored and can end
below 100), and ratings 1200/1200 with 0 games each become 1220/1180. -/
theorem c7_elo_equal_ratings
    (elo wg lg : Nat) (hcap : elo + 20 ≤ U32_LIMIT - 1) :
    (calculate_elo_equal elo wg lg).1 =
      elo + (if wg < 30 then 40 else 32) / 2 ∧
    (calculate_elo_equal elo wg lg).2 =
      max 100 (elo - (if lg < 30 then 40 else 32) / 2) ∧
    100 ≤ (calculate_elo_equal elo wg lg).2 ∧
    calculate_elo_equal 1200 0 0 = (1220, 1180) := by
  have hle : elo + (if wg < 30 then 40 else 32) / 2 ≤ U32_LIMIT - 1 := by
    split <;> omega
  unfold calculate_elo_equal
  refine ⟨Nat.min_eq_left hle, rfl, Nat.le_max_left _ _, by decide⟩

/-- Claim C7 (amended) witness: a 1200-rated winner with 0 games (K = 40)
against a 1200-rated loser with 35 games (K = 32): the winner gains 20,
the loser drops to max(100, 1184) = 1184, never below 100; and the
1200/1200, 0-games pair lands at 1220/1180. -/
theorem c7_elo_equal_ratings_witness :
    (calculate_elo_equal 1200 0 35).1 =
      1200 + (if (0 : Nat) < 30 then 40 else 32) / 2 ∧
    (calculate_elo_equal 1200 0 35).2 =
      max 100 (1200 - (if (35 : Nat) < 30 then 40 else 32) / 2) ∧
    100 ≤ (calculate_elo_equal 1200 0 35).2 ∧
    calculate_elo_equal 1200 0 0 = (1220, 1180) := by
  exact c7_elo_equal_ratings 1200 0 35 (by decide)

/-- Claim C9 counterexample: start_game accepts the same identity for both
players — there is no distinctness check — and the created match records
player_one = player_two. -/
theorem c9_counterexample_same_identity :
    start_game { authority := 1, fee_bps := 250, treasury := 2,
                 total_games := 0, total_volume := 0 } 1 7 7 1000000 300 9 =
      .ok ({ authority := 1, fee_bps := 250, treasury := 2,
             total_games := 1, total_volume := 2000000 },
           { samplePendingGame with player_two := 7 }) ∧
    ({ samplePendingGame with player_two := 7 } : Game).player_one =
      ({ samplePendingGame with player_two := 7 } : Game).player_two := by
  exact ⟨rfl, rfl⟩

/-- Claim C9 (amended): match creation records exactly the two supplied
identities and imposes no distinctness requirement on them: with an
authorized caller, a positive stake and no overflow, creation succeeds for
any pair of identities, equal ones included, and stores them verbatim. -/
theorem c9_players_recorded_verbatim
    (platform : Platform) (caller p1k p2k : Pubkey) (bet tf esc : Nat)
    (hauth : platform.authority = caller) (hbet : 0 < bet)
    (hbet2 : bet * 2 < U64_LIMIT)
    (hvol : platform.total_volume + bet * 2 < U64_LIMIT) :
    start_game platform caller p1k p2k bet tf esc =
      .ok ({ platform with
             total_games := (platform.total_games + 1) % U64_LIMIT
             total_volume := platform.total_volume + bet * 2 },
           { game_id := (platform.total_games + 1) % U64_LIMIT
             player_one := p1k
             player_two := p2k
             bet_amount := bet
             timeframe_seconds := tf
             escrow_token_account := esc
             status := GameStatus.Pending
             winner := none
             player_one_pnl := 0
             player_two_pnl := 0
             player_one_deposited := false
             player_two_deposited := false
             start_time := 0
             end_time := 0
             settled_at := 0 }) := by
  unfold start_game
  rw [if_neg (not_not_intro hauth), if_neg (by omega)]
  rw [show checked_mul bet 2 = some (bet * 2) from by
    simp [checked_mul, hbet2]]
  dsimp only []
  rw [show checked_add platform.total_volume (bet * 2) =
      some (platform.total_volume + bet * 2) from by
    simp [checked_add, hvol]]

/-- Claim C9 (amended) witness: creation with identity 7 supplied for both
players succeeds and stores 7 twice. -/
theorem c9_players_recorded_verbatim_witness :
    start_game { authority := 1, fee_bps := 250, treasury := 2,
                 total_games := 0, total_volume := 0 } 1 7 7 1000000 300 9 =
      .ok ({ authority := 1, fee_bps := 250, treasury := 2,
             total_games := (0 + 1) % U64_LIMIT,
             total_volume := 0 + 1000000 * 2 },
           { game_id := (0 + 1) % U64_LIMIT
             player_one := 7
             player_two := 7
             bet_amount := 1000000
             timeframe_seconds := 300
             escrow_token_account := 9
             status := GameStatus.Pending
             winner := none
             player_one_pnl := 0
             player_two_pnl := 0
             player_one_deposited := false
             player_two_deposited := false
             start_time := 0
             end_time := 0
             settled_at := 0 }) := by
  exact c9_players_recorded_verbatim
    { authority := 1, fee_bps := 250, treasury := 2,
      total_games := 0, total_volume := 0 } 1 7 7 1000000 300 9
    (by rfl) (by decide) (by decide) (by decide)

end Solfight
